import Mathlib

/-!
Shallow embedding of the tx-indexer start command (cmd/start.go) together
with the fetch package's Storage and Client contracts, and theorems about
the wiring performed by `startCfg.exec` and `setupJSONRPC`.

External calls (log-level parsing, logger construction, Pebble DB opening,
DB close, waiter result, logger sync) are modelled by an environment record
`ExecEnv` giving the outcome of each call; `exec` returns its Go error
result together with the ordered trace of effects it performed, mirroring
the source statement by statement.
-/

/-- Go errors are modelled by their message string; `none` is Go's nil error. -/
abbrev GoError := String

/-- tm2 types.Block (external to this repository); payload abstracted. -/
structure Block where
  raw : Nat
  deriving DecidableEq, Repr

/-- tm2 types.TxResult (external to this repository); payload abstracted. -/
structure TxResult where
  raw : Nat
  deriving DecidableEq, Repr

/-- tm2 core_types.ResultBlock (external); payload abstracted. -/
structure ResultBlock where
  raw : Nat
  deriving DecidableEq, Repr

/-- tm2 core_types.ResultBlockResults (external); payload abstracted. -/
structure ResultBlockResults where
  raw : Nat
  deriving DecidableEq, Repr

/-- fetch.Storage: the transaction storage interface consumed by the
fetcher (fetch package). A Go method returning `(T, error)` is a field of
type `_ → T × Option GoError`; a method returning only `error` is a field
of type `_ → Option GoError`. -/
structure fetch.Storage where
  GetLatestHeight : Unit → Int × Option GoError
  SaveBlock : Block → Option GoError
  SaveTx : TxResult → Option GoError

/-- fetch.Client: the node communication interface consumed by the
fetcher (fetch package). Go's `(*T, error)` returns become
`Option T × Option GoError`. -/
structure fetch.Client where
  GetLatestBlockNumber : Unit → Int × Option GoError
  GetBlock : Int → Option ResultBlock × Option GoError
  GetBlockResults : Int → Option ResultBlockResults × Option GoError

/-- The Storage contract is exactly its three methods: the record of
methods and the triple of method values are in bijection. -/
def fetch.Storage.methodsEquiv :
    fetch.Storage ≃
      ((Unit → Int × Option GoError) ×
       (Block → Option GoError) ×
       (TxResult → Option GoError)) where
  toFun s := (s.GetLatestHeight, s.SaveBlock, s.SaveTx)
  invFun p := { GetLatestHeight := p.1, SaveBlock := p.2.1, SaveTx := p.2.2 }
  left_inv := fun _ => rfl
  right_inv := fun _ => rfl

/-- The Client contract is exactly its three methods: the record of
methods and the triple of method values are in bijection. -/
def fetch.Client.methodsEquiv :
    fetch.Client ≃
      ((Unit → Int × Option GoError) ×
       (Int → Option ResultBlock × Option GoError) ×
       (Int → Option ResultBlockResults × Option GoError)) where
  toFun s := (s.GetLatestBlockNumber, s.GetBlock, s.GetBlockResults)
  invFun p := { GetLatestBlockNumber := p.1, GetBlock := p.2.1, GetBlockResults := p.2.2 }
  left_inv := fun _ => rfl
  right_inv := fun _ => rfl

/-- The two services registered on the waiter in exec. -/
inductive Service where
  | fetchChainData
  | jsonrpcServe
  deriving DecidableEq, Repr

/-- One observable effect of exec, in program order. DB instances and
event-manager instances are identified by allocation ids (Nat); client
handles by their remote endpoint string. -/
inductive Effect where
  | parseLogLevel (level : String)
  | loggerBuild
  | openDB (path : String)
  | newManager (em : Nat)
  | newClient (remote : String)
  | fetchNew (db : Nat) (clientRemote : String) (em : Nat)
      (maxSlots : Int) (maxChunkSize : Int)
  | jsonrpcNew (em : Nat) (listenAddress : String)
  | registerTxEndpoints (db : Nat)
  | registerBlockEndpoints (db : Nat)
  | registerSubEndpoints (db : Nat)
  | waiterAdd (svc : Service)
  | waiterWait
  | loggerSync
  | dbClose
  | logCloseError (msg : GoError)
  deriving DecidableEq, Repr

/-- Modelled from the spec: the waiter (newWaiter, add and wait —
repository code not under src) awaits every added service before
returning, and its combined termination result is the field waitResult.
The remaining fields give the outcomes of the external calls exec makes,
fixed per run: zap.ParseAtomicLevel on the given level string, zap config
Build, storage.NewPebble on the given path (returning a DB id), db.Close,
and logger.Sync(). -/
structure ExecEnv where
  parseAtomicLevel : String → Except GoError Unit
  loggerBuild : Except GoError Unit
  newPebble : String → Except GoError Nat
  dbClose : Option GoError
  waitResult : Option GoError
  syncResult : Option GoError

/-- cmd constant defaultRemote. -/
def defaultRemote : String := "http://127.0.0.1:26657"

/-- cmd constant defaultDBPath. -/
def defaultDBPath : String := "indexer-db"

/-- startCfg: the start command configuration (cmd/start.go). Go's int and
int64 are both embedded as Int. -/
structure startCfg where
  listenAddress : String
  remote : String
  dbPath : String
  logLevel : String
  maxSlots : Int
  maxChunkSize : Int
  deriving DecidableEq, Repr

/-- The values supplied on the command line; `none` means the flag was not
supplied, so the registered default applies. -/
structure FlagSetValues where
  listenAddress : Option String
  remote : Option String
  dbPath : Option String
  logLevel : Option String
  maxSlots : Option Int
  maxChunkSize : Option Int
  deriving DecidableEq, Repr

/-- Modelled from the spec: the defaults registered by registerFlags
whose defining code is not under src — serve.DefaultListenAddress,
zap.InfoLevel.String(), fetch.DefaultMaxSlots and
fetch.DefaultMaxChunkSize. The spec documents them only as documented
defaults, so their values are parameters of the model. -/
structure ExternalDefaults where
  DefaultListenAddress : String
  InfoLevelString : String
  DefaultMaxSlots : Int
  DefaultMaxChunkSize : Int
  deriving DecidableEq, Repr

/-- startCfg.registerFlags: each flag is registered with its documented
default; after flag parsing a field holds the supplied value when the flag
was given and the registered default otherwise. -/
def startCfg.registerFlags (d : ExternalDefaults) (fl : FlagSetValues) : startCfg :=
  { listenAddress := fl.listenAddress.getD d.DefaultListenAddress
    remote := fl.remote.getD defaultRemote
    dbPath := fl.dbPath.getD defaultDBPath
    logLevel := fl.logLevel.getD d.InfoLevelString
    maxSlots := fl.maxSlots.getD d.DefaultMaxSlots
    maxChunkSize := fl.maxChunkSize.getD d.DefaultMaxChunkSize }

namespace errors

/-- errors.Join at the two arguments used in exec: nil iff both are nil. -/
def Join : Option GoError → Option GoError → Option GoError
  | none, none => none
  | some e, none => some e
  | none, some f => some f
  | some e, some f => some (e ++ "\n" ++ f)

end errors

namespace events

/-- events.NewManager: allocates a fresh Manager; modelled as drawing a
fresh id from an allocation counter. -/
def NewManager (alloc : Nat) : Nat × Nat := (alloc, alloc + 1)

end events

namespace client

/-- client.NewClient: builds a client for the given remote endpoint; the
handle is identified by that endpoint. -/
def NewClient (remote : String) : String := remote

end client

/-- serve.JSONRPC: the JSON-RPC service; it records the event manager and
listen address it was constructed with and, per endpoint group, the list
of DB instances registered for that group. -/
structure serve.JSONRPC where
  em : Nat
  listenAddress : String
  txEndpointDBs : List Nat
  blockEndpointDBs : List Nat
  subEndpointDBs : List Nat
  deriving DecidableEq, Repr

/-- serve.NewJSONRPC with the listen-address option; no endpoints yet. -/
def serve.NewJSONRPC (em : Nat) (listenAddress : String) : serve.JSONRPC :=
  { em := em
    listenAddress := listenAddress
    txEndpointDBs := []
    blockEndpointDBs := []
    subEndpointDBs := [] }

/-- j.RegisterTxEndpoints(db). -/
def serve.JSONRPC.RegisterTxEndpoints (j : serve.JSONRPC) (db : Nat) : serve.JSONRPC :=
  { j with txEndpointDBs := j.txEndpointDBs ++ [db] }

/-- j.RegisterBlockEndpoints(db). -/
def serve.JSONRPC.RegisterBlockEndpoints (j : serve.JSONRPC) (db : Nat) : serve.JSONRPC :=
  { j with blockEndpointDBs := j.blockEndpointDBs ++ [db] }

/-- j.RegisterSubEndpoints(db). -/
def serve.JSONRPC.RegisterSubEndpoints (j : serve.JSONRPC) (db : Nat) : serve.JSONRPC :=
  { j with subEndpointDBs := j.subEndpointDBs ++ [db] }

/-- The zap logger, observationally irrelevant to the wiring. -/
abbrev Logger := Unit

/-- setupJSONRPC (cmd/start.go): builds the JSONRPC instance via
serve.NewJSONRPC, then registers the transaction, block and subscription
endpoint groups on it, each backed by the given db, and returns it
together with the trace of effects performed. -/
def setupJSONRPC (listenAddress : String) (db : Nat) (em : Nat) (_logger : Logger) :
    serve.JSONRPC × List Effect :=
  let j := serve.NewJSONRPC em listenAddress
  let j1 := serve.JSONRPC.RegisterTxEndpoints j db
  let j2 := serve.JSONRPC.RegisterBlockEndpoints j1 db
  let j3 := serve.JSONRPC.RegisterSubEndpoints j2 db
  (j3,
   [Effect.jsonrpcNew em listenAddress,
    Effect.registerTxEndpoints db,
    Effect.registerBlockEndpoints db,
    Effect.registerSubEndpoints db])

/-- The trace of the deferred db.Close handler: Close always runs; a Close
failure is only logged. -/
def closeTail (env : ExecEnv) : List Effect :=
  match env.dbClose with
  | some e => [Effect.dbClose, Effect.logCloseError e]
  | none => [Effect.dbClose]

/-- The outcome of one run of exec: the Go error returned, the ordered
trace of effects, and the receiver configuration as it stands on return. -/
structure ExecOutcome where
  result : Option GoError
  trace : List Effect
  cfgFinal : startCfg
  deriving DecidableEq, Repr

/-- startCfg.exec (cmd/start.go), statement by statement: parse the log
level, build the logger, open the Pebble DB (registering the deferred
Close), construct one events.Manager, construct the fetcher via fetch.New
with the db, the client for c.remote, the manager and the slot/chunk
options, construct the JSON-RPC service via setupJSONRPC with the same db
and manager, add both services to a waiter, and return
errors.Join(w.wait(), logger.Sync()). -/
def startCfg.exec (c : startCfg) (env : ExecEnv) : ExecOutcome :=
  match env.parseAtomicLevel c.logLevel with
  | .error err =>
      { result := some ("unable to parse log level, " ++ err)
        trace := [Effect.parseLogLevel c.logLevel]
        cfgFinal := c }
  | .ok _ =>
    match env.loggerBuild with
    | .error err =>
        { result := some ("unable to create logger, " ++ err)
          trace := [Effect.parseLogLevel c.logLevel, Effect.loggerBuild]
          cfgFinal := c }
    | .ok _ =>
      match env.newPebble c.dbPath with
      | .error err =>
          { result := some ("unable to open storage DB, " ++ err)
            trace := [Effect.parseLogLevel c.logLevel, Effect.loggerBuild,
                      Effect.openDB c.dbPath]
            cfgFinal := c }
      | .ok db =>
          let em := (events.NewManager 0).1
          let cl := client.NewClient c.remote
          let sj := setupJSONRPC c.listenAddress db em ()
          { result := errors.Join env.waitResult env.syncResult
            trace :=
              [Effect.parseLogLevel c.logLevel, Effect.loggerBuild,
               Effect.openDB c.dbPath,
               Effect.newManager em, Effect.newClient cl,
               Effect.fetchNew db cl em c.maxSlots c.maxChunkSize]
              ++ sj.2
              ++ [Effect.waiterAdd Service.fetchChainData,
                  Effect.waiterAdd Service.jsonrpcServe,
                  Effect.waiterWait, Effect.loggerSync]
              ++ closeTail env
            cfgFinal := c }

/-- Whether an effect is an events.NewManager construction. -/
def Effect.isNewManager : Effect → Bool
  | Effect.newManager _ => true
  | _ => false

/-- The complete outcome of a run of exec in which log-level parsing,
logger construction and DB opening all succeed. -/
theorem exec_success (c : startCfg) (env : ExecEnv) (db : Nat) (u v : Unit)
    (hp : env.parseAtomicLevel c.logLevel = Except.ok u)
    (hb : env.loggerBuild = Except.ok v)
    (hd : env.newPebble c.dbPath = Except.ok db) :
    c.exec env =
      { result := errors.Join env.waitResult env.syncResult
        trace :=
          [Effect.parseLogLevel c.logLevel, Effect.loggerBuild,
           Effect.openDB c.dbPath,
           Effect.newManager 0, Effect.newClient c.remote,
           Effect.fetchNew db c.remote 0 c.maxSlots c.maxChunkSize,
           Effect.jsonrpcNew 0 c.listenAddress,
           Effect.registerTxEndpoints db,
           Effect.registerBlockEndpoints db,
           Effect.registerSubEndpoints db,
           Effect.waiterAdd Service.fetchChainData,
           Effect.waiterAdd Service.jsonrpcServe,
           Effect.waiterWait, Effect.loggerSync] ++ closeTail env
        cfgFinal := c } := by
  simp [startCfg.exec, hp, hb, hd, setupJSONRPC, events.NewManager, client.NewClient,
        serve.NewJSONRPC]

/-- A fully successful environment for concrete runs: the DB opens with id 7. -/
def envOK : ExecEnv :=
  { parseAtomicLevel := fun _ => Except.ok ()
    loggerBuild := Except.ok ()
    newPebble := fun _ => Except.ok 7
    dbClose := none
    waitResult := none
    syncResult := none }

/-- A run environment whose deferred db Close fails. -/
def envCloseErr : ExecEnv := { envOK with dbClose := some "close failed" }

/-- A run environment whose log-level parse fails. -/
def envParseErr : ExecEnv :=
  { envOK with parseAtomicLevel := fun _ => Except.error "bad level" }

/-- A concrete configuration. -/
def cfgA : startCfg :=
  { listenAddress := "0.0.0.0:8546"
    remote := defaultRemote
    dbPath := defaultDBPath
    logLevel := "info"
    maxSlots := 100
    maxChunkSize := 100 }

/-- A concrete configuration with a non-positive worker count. -/
def cfgZeroSlots : startCfg := { cfgA with maxSlots := 0 }

/-- C10: setupJSONRPC registers all three endpoint groups — transaction,
block and subscription endpoints — on the single JSONRPC instance it
returns, each backed by the same storage DB it was given, and that
instance carries the manager and listen address it was built from. -/
theorem setupJSONRPC_registers_all_groups (a : String) (db em : Nat) (lg : Logger) :
    (setupJSONRPC a db em lg).1.txEndpointDBs = [db] ∧
    (setupJSONRPC a db em lg).1.blockEndpointDBs = [db] ∧
    (setupJSONRPC a db em lg).1.subEndpointDBs = [db] ∧
    (setupJSONRPC a db em lg).1.em = em ∧
    (setupJSONRPC a db em lg).1.listenAddress = a :=
  ⟨rfl, rfl, rfl, rfl, rfl⟩

/-- C8: if the log-level flag value cannot be parsed, exec returns a
non-nil error wrapping the parse error, and its trace holds only the
parse attempt: no DB has been opened and no event manager, fetcher or
JSON-RPC service has been constructed, added or awaited. -/
theorem exec_parse_error_early_return (c : startCfg) (env : ExecEnv) (e : GoError)
    (hp : env.parseAtomicLevel c.logLevel = Except.error e) :
    (c.exec env).result = some ("unable to parse log level, " ++ e) ∧
    (c.exec env).trace = [Effect.parseLogLevel c.logLevel] := by
  simp [startCfg.exec, hp]

/-- Witness for C8 at a concrete configuration and environment. -/
theorem exec_parse_error_early_return_w :
    (cfgA.exec envParseErr).result = some ("unable to parse log level, " ++ "bad level") ∧
    (cfgA.exec envParseErr).trace = [Effect.parseLogLevel cfgA.logLevel] :=
  exec_parse_error_early_return cfgA envParseErr "bad level" rfl

/-- C9: whenever exec successfully opens the storage DB, the deferred
db.Close runs before exec returns, a Close failure is only logged, and
the result is exactly errors.Join of the waiter result and the logger
sync error, independent of the Close outcome. -/
theorem exec_db_close_deferred (c : startCfg) (env : ExecEnv) (db : Nat) (u v : Unit)
    (hp : env.parseAtomicLevel c.logLevel = Except.ok u)
    (hb : env.loggerBuild = Except.ok v)
    (hd : env.newPebble c.dbPath = Except.ok db) :
    Effect.dbClose ∈ (c.exec env).trace ∧
    (c.exec env).result = errors.Join env.waitResult env.syncResult ∧
    (∀ e, env.dbClose = some e → Effect.logCloseError e ∈ (c.exec env).trace) := by
  rw [exec_success c env db u v hp hb hd]
  refine ⟨?_, rfl, ?_⟩
  · cases h : env.dbClose <;> simp [closeTail, h]
  · intro e he
    simp [closeTail, he]

/-- Witness for C9 at a concrete run whose Close fails. -/
theorem exec_db_close_deferred_w :
    Effect.dbClose ∈ (cfgA.exec envCloseErr).trace ∧
    (cfgA.exec envCloseErr).result =
      errors.Join envCloseErr.waitResult envCloseErr.syncResult ∧
    (∀ e, envCloseErr.dbClose = some e →
      Effect.logCloseError e ∈ (cfgA.exec envCloseErr).trace) :=
  exec_db_close_deferred cfgA envCloseErr 7 () () rfl rfl rfl

/-- C7: exec abandons no registered service: in any run that adds a
service to the waiter, both the fetcher service and the JSON-RPC service
are added and then w.wait() over them is computed, in that order, and
exec's result is exactly errors.Join of the wait result and the logger
sync error — the wait result is always computed before exec's return
value is produced. -/
theorem exec_waits_before_return (c : startCfg) (env : ExecEnv)
    (h : ∃ s, Effect.waiterAdd s ∈ (c.exec env).trace) :
    [Effect.waiterAdd Service.fetchChainData, Effect.waiterAdd Service.jsonrpcServe,
     Effect.waiterWait].Sublist (c.exec env).trace ∧
    (c.exec env).result = errors.Join env.waitResult env.syncResult := by
  obtain ⟨s, hs⟩ := h
  rcases hp : env.parseAtomicLevel c.logLevel with e | u
  · simp [startCfg.exec, hp] at hs
  rcases hb : env.loggerBuild with e | v
  · simp [startCfg.exec, hp, hb] at hs
  rcases hd : env.newPebble c.dbPath with e | db
  · simp [startCfg.exec, hp, hb, hd] at hs
  rw [exec_success c env db u v hp hb hd]
  refine ⟨?_, rfl⟩
  refine List.Sublist.trans ?_ (List.sublist_append_left _ _)
  apply List.Sublist.cons; apply List.Sublist.cons; apply List.Sublist.cons
  apply List.Sublist.cons; apply List.Sublist.cons; apply List.Sublist.cons
  apply List.Sublist.cons; apply List.Sublist.cons; apply List.Sublist.cons
  apply List.Sublist.cons
  apply List.Sublist.cons₂; apply List.Sublist.cons₂; apply List.Sublist.cons₂
  exact List.nil_sublist _

/-- Witness for C7 at a concrete run. -/
theorem exec_waits_before_return_w :
    [Effect.waiterAdd Service.fetchChainData, Effect.waiterAdd Service.jsonrpcServe,
     Effect.waiterWait].Sublist (cfgA.exec envOK).trace ∧
    (cfgA.exec envOK).result = errors.Join envOK.waitResult envOK.syncResult :=
  exec_waits_before_return cfgA envOK ⟨Service.fetchChainData, by decide⟩

/-- C1: the Storage contract is an explicit interface of exactly the
three methods GetLatestHeight, SaveBlock and SaveTx — two Storage values
agreeing on the three methods are equal, and the contract is in
bijection with the triple of methods — and the opened DB is the value
injected into the pipeline: every run of exec whose setup succeeds
passes the DB returned by storage.NewPebble to fetch.New. -/
theorem Storage_contract_and_db_injection :
    (∀ s t : fetch.Storage,
        s.GetLatestHeight = t.GetLatestHeight → s.SaveBlock = t.SaveBlock →
        s.SaveTx = t.SaveTx → s = t) ∧
    Nonempty (fetch.Storage ≃
      ((Unit → Int × Option GoError) × (Block → Option GoError) ×
       (TxResult → Option GoError))) ∧
    (∀ (c : startCfg) (env : ExecEnv) (db : Nat) (u v : Unit),
        env.parseAtomicLevel c.logLevel = Except.ok u →
        env.loggerBuild = Except.ok v →
        env.newPebble c.dbPath = Except.ok db →
        Effect.fetchNew db c.remote 0 c.maxSlots c.maxChunkSize ∈ (c.exec env).trace) := by
  refine ⟨?_, ⟨fetch.Storage.methodsEquiv⟩, ?_⟩
  · intro s t h1 h2 h3
    cases s; cases t
    simp_all [fetch.Storage.mk.injEq]
  · intro c env db u v hp hb hd
    rw [exec_success c env db u v hp hb hd]
    simp

/-- Two method-wise equal Storage values built separately. -/
def storageA : fetch.Storage :=
  { GetLatestHeight := fun _ => (0, none)
    SaveBlock := fun _ => none
    SaveTx := fun _ => none }

/-- The same methods as storageA, as a second value. -/
def storageB : fetch.Storage :=
  { GetLatestHeight := fun _ => (0, none)
    SaveBlock := fun _ => none
    SaveTx := fun _ => none }

/-- Witness for C1: the extensionality part at storageA/storageB and the
injection part at a concrete run. -/
theorem Storage_contract_and_db_injection_w :
    storageA = storageB ∧
    Effect.fetchNew 7 cfgA.remote 0 cfgA.maxSlots cfgA.maxChunkSize
      ∈ (cfgA.exec envOK).trace :=
  ⟨Storage_contract_and_db_injection.1 storageA storageB rfl rfl rfl,
   Storage_contract_and_db_injection.2.2 cfgA envOK 7 () () rfl rfl rfl⟩

/-- C2: the Client contract is an explicit interface of exactly the three
methods GetLatestBlockNumber, GetBlock and GetBlockResults — two Client
values agreeing on the three methods are equal, and the contract is in
bijection with the triple of methods — and the client injected into the
pipeline is built from the configured remote endpoint: every run of exec
whose setup succeeds constructs client.NewClient(c.remote) and passes it
to fetch.New. -/
theorem Client_contract_and_injection :
    (∀ s t : fetch.Client,
        s.GetLatestBlockNumber = t.GetLatestBlockNumber → s.GetBlock = t.GetBlock →
        s.GetBlockResults = t.GetBlockResults → s = t) ∧
    Nonempty (fetch.Client ≃
      ((Unit → Int × Option GoError) × (Int → Option ResultBlock × Option GoError) ×
       (Int → Option ResultBlockResults × Option GoError))) ∧
    (∀ (c : startCfg) (env : ExecEnv) (db : Nat) (u v : Unit),
        env.parseAtomicLevel c.logLevel = Except.ok u →
        env.loggerBuild = Except.ok v →
        env.newPebble c.dbPath = Except.ok db →
        Effect.newClient (client.NewClient c.remote) ∈ (c.exec env).trace ∧
        Effect.fetchNew db (client.NewClient c.remote) 0 c.maxSlots c.maxChunkSize
          ∈ (c.exec env).trace) := by
  refine ⟨?_, ⟨fetch.Client.methodsEquiv⟩, ?_⟩
  · intro s t h1 h2 h3
    cases s; cases t
    simp_all [fetch.Client.mk.injEq]
  · intro c env db u v hp hb hd
    rw [exec_success c env db u v hp hb hd]
    constructor <;> simp [client.NewClient]

/-- Two method-wise equal Client values built separately. -/
def clientA : fetch.Client :=
  { GetLatestBlockNumber := fun _ => (0, none)
    GetBlock := fun _ => (none, some "height not found")
    GetBlockResults := fun _ => (none, some "height not found") }

/-- The same methods as clientA, as a second value. -/
def clientB : fetch.Client :=
  { GetLatestBlockNumber := fun _ => (0, none)
    GetBlock := fun _ => (none, some "height not found")
    GetBlockResults := fun _ => (none, some "height not found") }

/-- Witness for C2: the extensionality part at clientA/clientB and the
injection part at a concrete run. -/
theorem Client_contract_and_injection_w :
    clientA = clientB ∧
    (Effect.newClient (client.NewClient cfgA.remote) ∈ (cfgA.exec envOK).trace ∧
     Effect.fetchNew 7 (client.NewClient cfgA.remote) 0 cfgA.maxSlots cfgA.maxChunkSize
       ∈ (cfgA.exec envOK).trace) :=
  ⟨Client_contract_and_injection.1 clientA clientB rfl rfl rfl,
   Client_contract_and_injection.2.2 cfgA envOK 7 () () rfl rfl rfl⟩

/-- C3: exec constructs exactly one events.Manager per run reaching
pipeline construction, and that same instance is passed by reference to
both the fetcher (fetch.New) and the serving layer (setupJSONRPC): one
manager id is allocated, recorded once in the trace, and appears in both
construction events. -/
theorem exec_single_shared_manager (c : startCfg) (env : ExecEnv) (db : Nat) (u v : Unit)
    (hp : env.parseAtomicLevel c.logLevel = Except.ok u)
    (hb : env.loggerBuild = Except.ok v)
    (hd : env.newPebble c.dbPath = Except.ok db) :
    ∃ em : Nat,
      ((c.exec env).trace.countP Effect.isNewManager) = 1 ∧
      Effect.newManager em ∈ (c.exec env).trace ∧
      Effect.fetchNew db c.remote em c.maxSlots c.maxChunkSize ∈ (c.exec env).trace ∧
      Effect.jsonrpcNew em c.listenAddress ∈ (c.exec env).trace := by
  rw [exec_success c env db u v hp hb hd]
  refine ⟨0, ?_, by simp, by simp, by simp⟩
  rw [List.countP_append]
  cases h : env.dbClose <;>
    simp [closeTail, h, Effect.isNewManager, List.countP_cons]

/-- Witness for C3 at a concrete run. -/
theorem exec_single_shared_manager_w :
    ∃ em : Nat,
      ((cfgA.exec envOK).trace.countP Effect.isNewManager) = 1 ∧
      Effect.newManager em ∈ (cfgA.exec envOK).trace ∧
      Effect.fetchNew 7 cfgA.remote em cfgA.maxSlots cfgA.maxChunkSize
        ∈ (cfgA.exec envOK).trace ∧
      Effect.jsonrpcNew em cfgA.listenAddress ∈ (cfgA.exec envOK).trace :=
  exec_single_shared_manager cfgA envOK 7 () () rfl rfl rfl

/-- C4 counterexample: with max-slots configured to 0 and every external
call succeeding, exec reaches fetch.New with a non-positive worker
count, so the claim that exec never reaches fetch.New with a
non-positive worker count or chunk size is false on the code: no
validation is performed between flag parsing and pipeline
construction. -/
theorem exec_slot_validation_cex :
    cfgZeroSlots.maxSlots ≤ 0 ∧
    Effect.fetchNew 7 cfgZeroSlots.remote 0 cfgZeroSlots.maxSlots cfgZeroSlots.maxChunkSize
      ∈ (cfgZeroSlots.exec envOK).trace := by
  constructor
  · decide
  · decide

/-- C4 amended: exec performs no positivity validation of the worker
count or max chunk size: for every configuration whose external setup
calls succeed, exec reaches fetch.New with exactly the configured
maxSlots and maxChunkSize values, whether positive or not; only the
registered flag defaults make the values positive when the flags are
left unset. -/
theorem exec_passes_config_unvalidated (c : startCfg) (env : ExecEnv) (db : Nat) (u v : Unit)
    (hp : env.parseAtomicLevel c.logLevel = Except.ok u)
    (hb : env.loggerBuild = Except.ok v)
    (hd : env.newPebble c.dbPath = Except.ok db) :
    Effect.fetchNew db c.remote 0 c.maxSlots c.maxChunkSize ∈ (c.exec env).trace := by
  rw [exec_success c env db u v hp hb hd]
  simp

/-- Witness for the amended C4 at the zero-slot configuration. -/
theorem exec_passes_config_unvalidated_w :
    Effect.fetchNew 7 cfgZeroSlots.remote 0 cfgZeroSlots.maxSlots cfgZeroSlots.maxChunkSize
      ∈ (cfgZeroSlots.exec envOK).trace :=
  exec_passes_config_unvalidated cfgZeroSlots envOK 7 () () rfl rfl rfl

/-- The flag set with no flags supplied on the command line. -/
def flagsNone : FlagSetValues :=
  { listenAddress := none
    remote := none
    dbPath := none
    logLevel := none
    maxSlots := none
    maxChunkSize := none }

/-- A concrete choice for the externally defined defaults. -/
def defaultsA : ExternalDefaults :=
  { DefaultListenAddress := "0.0.0.0:8546"
    InfoLevelString := "info"
    DefaultMaxSlots := 100
    DefaultMaxChunkSize := 100 }

/-- C5: when the max-slots and max-chunk-size flags are not supplied, the
configuration carries the registered defaults fetch.DefaultMaxSlots and
fetch.DefaultMaxChunkSize, and those values are exactly what exec passes
to fetch.New at pipeline construction. -/
theorem flag_defaults_reach_fetch (d : ExternalDefaults) (fl : FlagSetValues)
    (env : ExecEnv) (db : Nat) (u v : Unit)
    (hs : fl.maxSlots = none) (hk : fl.maxChunkSize = none)
    (hp : env.parseAtomicLevel (startCfg.registerFlags d fl).logLevel = Except.ok u)
    (hb : env.loggerBuild = Except.ok v)
    (hd : env.newPebble (startCfg.registerFlags d fl).dbPath = Except.ok db) :
    (startCfg.registerFlags d fl).maxSlots = d.DefaultMaxSlots ∧
    (startCfg.registerFlags d fl).maxChunkSize = d.DefaultMaxChunkSize ∧
    Effect.fetchNew db (startCfg.registerFlags d fl).remote 0
        d.DefaultMaxSlots d.DefaultMaxChunkSize
      ∈ ((startCfg.registerFlags d fl).exec env).trace := by
  have h1 : (startCfg.registerFlags d fl).maxSlots = d.DefaultMaxSlots := by
    simp [startCfg.registerFlags, hs]
  have h2 : (startCfg.registerFlags d fl).maxChunkSize = d.DefaultMaxChunkSize := by
    simp [startCfg.registerFlags, hk]
  refine ⟨h1, h2, ?_⟩
  rw [exec_success _ env db u v hp hb hd, ← h1, ← h2]
  simp

/-- Witness for C5 with all flags unset and concrete defaults. -/
theorem flag_defaults_reach_fetch_w :
    (startCfg.registerFlags defaultsA flagsNone).maxSlots = defaultsA.DefaultMaxSlots ∧
    (startCfg.registerFlags defaultsA flagsNone).maxChunkSize =
      defaultsA.DefaultMaxChunkSize ∧
    Effect.fetchNew 7 (startCfg.registerFlags defaultsA flagsNone).remote 0
        defaultsA.DefaultMaxSlots defaultsA.DefaultMaxChunkSize
      ∈ ((startCfg.registerFlags defaultsA flagsNone).exec envOK).trace :=
  flag_defaults_reach_fetch defaultsA flagsNone envOK 7 () () rfl rfl rfl rfl rfl

/-- C6: exec never mutates its configuration after reading it: the
receiver configuration on return equals the one at entry, and every
configuration value appearing anywhere in the trace — the parsed log
level, the opened db path, the remote endpoint, slot count and chunk
size at pipeline construction, and the listen address at JSON-RPC
construction — is exactly the corresponding field of the input
configuration. -/
theorem exec_cfg_not_mutated (c : startCfg) (env : ExecEnv) :
    (c.exec env).cfgFinal = c ∧
    (∀ l, Effect.parseLogLevel l ∈ (c.exec env).trace → l = c.logLevel) ∧
    (∀ p, Effect.openDB p ∈ (c.exec env).trace → p = c.dbPath) ∧
    (∀ db r em s k, Effect.fetchNew db r em s k ∈ (c.exec env).trace →
        r = c.remote ∧ s = c.maxSlots ∧ k = c.maxChunkSize) ∧
    (∀ em a, Effect.jsonrpcNew em a ∈ (c.exec env).trace → a = c.listenAddress) := by
  rcases hp : env.parseAtomicLevel c.logLevel with e | u
  · refine ⟨?_, ?_, ?_, ?_, ?_⟩ <;> simp [startCfg.exec, hp]
  rcases hb : env.loggerBuild with e | v
  · refine ⟨?_, ?_, ?_, ?_, ?_⟩ <;> simp [startCfg.exec, hp, hb]
  rcases hd : env.newPebble c.dbPath with e | db
  · refine ⟨?_, ?_, ?_, ?_, ?_⟩ <;> simp [startCfg.exec, hp, hb, hd]
  rw [exec_success c env db u v hp hb hd]
  refine ⟨rfl, ?_, ?_, ?_, ?_⟩ <;>
    cases h : env.dbClose <;>
      simp_all [closeTail]

/-- Witness for C6: the returned configuration of a concrete run equals
the input, and the remote recorded at pipeline construction is the
configured one. -/
theorem exec_cfg_not_mutated_w :
    (cfgA.exec envOK).cfgFinal = cfgA ∧ defaultRemote = cfgA.remote :=
  ⟨(exec_cfg_not_mutated cfgA envOK).1,
   ((exec_cfg_not_mutated cfgA envOK).2.2.2.1 7 defaultRemote 0 100 100 (by decide)).1⟩
